import Mathlib

/-!
Verification of the MomentLoop media delivery pipeline and playback controller.

The development shallowly embeds the relevant parts of the repository:
* `videoProcessingService.ts` (transcode service),
* the asynchronous `server.ts` variant of the `/process-video` endpoint,
* the Synology WebDAV uploader variant that performs a PROPFIND probe,
* the receiver's `VideoPlayer` component and `processNotification` handler.

External effects (filesystem, ffmpeg, HTTP) are abstracted as boolean or
enumerated oracles passed to the embedded functions; JavaScript exceptions are
modelled with `Except`, and the control flow of the server handler and the
React component is modelled as explicit event traces / state machines.
-/

namespace MomentLoop

/-- Lowercase a string character by character; models JavaScript
`String.prototype.toLowerCase` on the ASCII filenames handled here. -/
def strToLower (s : String) : String := String.mk (s.data.map Char.toLower)

/-- Suffix test on strings; models JavaScript `String.prototype.endsWith`. -/
def strEndsWith (s suffix : String) : Bool := suffix.data.isSuffixOf s.data

/-- Replace the first occurrence of the (nonempty) pattern `pat` in a
character list; models JavaScript `String.prototype.replace` with a string
pattern, which replaces only the first match and is case sensitive. -/
def replaceFirstChars (pat rep : List Char) : List Char → List Char
  | [] => []
  | c :: cs =>
    if pat.isPrefixOf (c :: cs) then rep ++ (c :: cs).drop pat.length
    else c :: replaceFirstChars pat rep cs

/-- String version of `replaceFirstChars`; models `s.replace(pat, rep)`. -/
def replaceFirst (s pat rep : String) : String :=
  String.mk (replaceFirstChars pat.data rep.data s.data)

/-- Models `path.split('/').pop() || ''`: the characters after the last `/`
(the whole string when it contains no `/`). -/
def basename (s : String) : String :=
  String.mk ((s.data.reverse.takeWhile (fun c => c != '/')).reverse)

/-- Models Deno `std/path` `join(dir, file)` for an already normalized
directory: the two parts end up separated by a single `/`. -/
def joinPath (dir file : String) : String :=
  if dir = "" then file
  else if strEndsWith dir "/" then dir ++ file
  else dir ++ "/" ++ file

/-! ## Transcode service (`videoProcessingService.ts`) -/

/-- The two `throw` sites of `processVideo`: `File not found: ...` and
`Video conversion failed`. -/
inductive ProcessError where
  | fileNotFound
  | conversionFailed
deriving DecidableEq, Repr

/-- The record resolved by `processVideo` on success. -/
structure TranscodeResult where
  success : Bool
  inputPath : String
  outputPath : String
  finalVideoPath : String
  processedVideoUrl : String
  needsConversion : Bool
deriving DecidableEq, Repr

/-- `VideoProcessingService.isMovFile`:
`filename.toLowerCase().endsWith('.mov')`. -/
def isMovFile (filename : String) : Bool := strEndsWith (strToLower filename) ".mov"

/-- `VideoProcessingService.processVideo`, with the filesystem and the ffmpeg
invocation abstracted: `fileExists` answers the `exists(inputPath)` check and
`convertOk` is the boolean returned by `convertMovToMp4` (driven by the ffmpeg
exit status). A thrown exception becomes `Except.error`. -/
def processVideo (videosDir serverUrl : String) (fileExists : String → Bool)
    (convertOk : Bool) (videoName : String) : Except ProcessError TranscodeResult :=
  let inputPath := joinPath videosDir videoName
  let outputPath := joinPath videosDir (replaceFirst videoName ".mov" ".mp4")
  if !fileExists inputPath then
    .error .fileNotFound
  else
    let needsConversion := isMovFile videoName
    if needsConversion then
      if convertOk then
        .ok { success := true, inputPath := inputPath, outputPath := outputPath,
              finalVideoPath := outputPath,
              processedVideoUrl := serverUrl ++ "/" ++ basename outputPath,
              needsConversion := needsConversion }
      else
        .error .conversionFailed
    else
      .ok { success := true, inputPath := inputPath, outputPath := outputPath,
            finalVideoPath := inputPath,
            processedVideoUrl := serverUrl ++ "/" ++ basename inputPath,
            needsConversion := needsConversion }

/-! ## Delivery orchestrator (`server.ts`, asynchronous variant on port 3021)

This is the `/process-video` variant the sender app and the `justfile`
target: it replies `{success:true, status:'processing'}` first and runs the
transcode / notification work in a deferred `setTimeout` continuation. -/

/-- Observable actions of one `POST /process-video` request, listed in
program order. -/
inductive SrvEv where
  | respond (status : String)
  | respondErr (code : Nat)
  | transcodeDone (ok : Bool)
  | notify (token url : String)
deriving DecidableEq, Repr

/-- The `app.post('/process-video')` handler: validate `videoName` (JavaScript
`!videoName` is true for a missing field and for the empty string), reply
`status:'processing'`, then asynchronously run `processVideo` and, when a
token was supplied and the transcode succeeded, `sendPushNotification` with
`processResult.processedVideoUrl`. A transcode failure rejects the deferred
continuation, so nothing runs after it. -/
def processVideoHandler (videosDir serverUrl : String) (fileExists : String → Bool)
    (convertOk : Bool) (videoName expoPushToken : Option String) : List SrvEv :=
  match videoName with
  | none => [.respondErr 400]
  | some name =>
    if name = "" then [.respondErr 400]
    else
      .respond "processing" ::
        (match processVideo videosDir serverUrl fileExists convertOk name with
         | .error _ => [.transcodeDone false]
         | .ok r =>
           .transcodeDone true ::
             (match expoPushToken with
              | some t => [.notify t r.processedVideoUrl]
              | none => []))

/-! ## Object store client (`uploadToSynology`, PROPFIND-probe variant)

The upload flow is: check the local file, PROPFIND the destination folder,
PUT the bytes. The probe and the PUT are abstracted as oracles; the
`putAttempted` field records whether control ever reached the PUT call. -/

/-- Outcome of the PROPFIND folder probe: success (2xx), an HTTP error
response with a status, or a network-level axios error with an error code
(for example `ECONNABORTED` on timeout) and no response. -/
inductive ProbeResult where
  | ok
  | httpFailure (status : Nat)
  | networkFailure (code : String)
deriving DecidableEq, Repr

/-- The `UploadResult` record returned to the caller, extended with the
`putAttempted` observation. -/
structure UploadOutcome where
  success : Bool
  url : Option String
  error : Option String
  putAttempted : Bool
deriving DecidableEq, Repr

/-- The outer `catch` of `uploadToSynology` for an axios error that carries a
response: the `switch (error.response.status)` message table. -/
def serverErrorMessage (status : Nat) : String :=
  if status = 405 then "WebDAV not properly configured. Please check your Synology WebDAV settings."
  else if status = 401 then "Authentication failed. Please check your credentials."
  else if status = 403 then "Permission denied. Please check folder permissions."
  else if status = 507 then "Not enough storage space on the server."
  else "Server error: " ++ toString status ++ " - Unknown error"

/-- The outer `catch` of `uploadToSynology` for an axios error without a
response: `ECONNABORTED` and `ECONNREFUSED` get dedicated messages, anything
else the generic connection-failed message. -/
def networkErrorMessage (code : String) : String :=
  if code = "ECONNABORTED" then "Upload timed out. Please try again."
  else if code = "ECONNREFUSED" then "Connection refused. Please check if the Synology WebDAV service is running and the port is correct."
  else "Connection failed. Please verify the Synology host, WebDAV service and port."

/-- `uploadToSynology(fileUri, fileName)`: `fileOnDevice` answers the
`FileSystem.getInfoAsync` existence check, `probe` is the PROPFIND outcome and
`putStatus` the HTTP status of the PUT. In the source, a probe failure other
than 404/401 is logged and then rethrown (`throw err`), which jumps to the
outer `catch` — control never reaches the PUT. `enc` models
`encodeURIComponent`. -/
def uploadToSynology (enc : String → String) (nginxHost fileName : String)
    (fileOnDevice : Bool) (probe : ProbeResult) (putStatus : Nat) : UploadOutcome :=
  if !fileOnDevice then
    { success := false, url := none, error := some "File does not exist", putAttempted := false }
  else
    match probe with
    | .ok =>
      if putStatus = 200 ∨ putStatus = 201 then
        { success := true, url := some (nginxHost ++ "/" ++ enc fileName), error := none,
          putAttempted := true }
      else
        { success := false, url := none,
          error := some ("Upload failed with status " ++ toString putStatus),
          putAttempted := true }
    | .httpFailure status =>
      if status = 404 then
        { success := false, url := none,
          error := some "Upload folder not found. Please check your Synology WebDAV configuration.",
          putAttempted := false }
      else if status = 401 then
        { success := false, url := none,
          error := some "Authentication failed. Please check your username and password.",
          putAttempted := false }
      else
        { success := false, url := none, error := some (serverErrorMessage status),
          putAttempted := false }
    | .networkFailure code =>
      { success := false, url := none, error := some (networkErrorMessage code),
        putAttempted := false }

/-! ## Resilient playback controller (`VideoPlayer` in the receiver `App.tsx`)

The component's state hooks and its event handlers are modelled as an explicit
state machine. `timerPending` models `retryTimeoutRef.current !== null` (the
code clears the previous timeout before setting a new one, so a single slot
suffices), `playing` models the underlying player's playing flag, and
`loadRequests` counts the `player.replace(uri)` calls issued so far. -/

/-- `MAX_REPLAYS` constant of the component. -/
def MAX_REPLAYS : Nat := 5

/-- `MAX_RETRIES` constant of the component. -/
def MAX_RETRIES : Nat := 10

/-- Message set by the `statusChange` listeners on a player error. -/
def loadErrMsg : String := "Failed to load video"

/-- Message set by `retryLoadingVideo` once the retry budget is exhausted. -/
def retryFailMsg : String := "Failed to load video after 10 attempts"

/-- The component's state. -/
structure PlayerState where
  isLoading : Bool
  error : Option String
  replayCount : Nat
  hasReachedLimit : Bool
  retryCount : Nat
  timerPending : Bool
  playing : Bool
  loadRequests : Nat
deriving DecidableEq, Repr

/-- State after mount for a visible item: the mount effect issues the initial
`player.replace(uri)` (counted in `loadRequests`) and starts playback. -/
def initState : PlayerState :=
  { isLoading := true, error := none, replayCount := 0, hasReachedLimit := false,
    retryCount := 0, timerPending := false, playing := true, loadRequests := 1 }

/-- Stimuli delivered to the component: player status changes, `playingChange`
events (with the player's new `isPlaying` flag and whether `currentTime > 0`),
the retry timer firing, the two manual controls, visibility changes and a URI
change. -/
inductive PEvent where
  | statusError
  | statusReady
  | playingChange (isPlaying : Bool) (curPos : Bool)
  | timerFire
  | retryNow
  | replayPress
  | visibility (v : Bool)
  | uriChange
deriving DecidableEq, Repr

/-- `retryLoadingVideo`: below `MAX_RETRIES` it shows the spinner, clears the
error, issues `player.replace(uri)` and increments `retryCount`; at the cap it
only sets the terminal failure message. -/
def retryStep (s : PlayerState) : PlayerState :=
  if s.retryCount < MAX_RETRIES then
    { s with
      isLoading := true
      error := none
      retryCount := s.retryCount + 1
      loadRequests := s.loadRequests + 1 }
  else
    { s with error := some retryFailMsg }

/-- One event of the component, combining the handlers of the source:
* `statusError`: the two `statusChange` listeners set the error message, stop
  the spinner and (after clearing any pending timeout) schedule the 20-second
  `setTimeout(retryLoadingVideo, 20000)`;
* `statusReady`: clears the spinner, the error, `retryCount` and the timeout;
* `playingChange`: the completion listener — when the player stopped, the
  limit is not reached and `currentTime > 0`, it increments `replayCount`,
  then either sets `hasReachedLimit` (at `MAX_REPLAYS`) or calls
  `player.replay()`;
* `timerFire`: a pending timeout fires and runs `retryLoadingVideo`;
* `retryNow`: `handleRetryNow` clears the pending timeout and calls
  `retryLoadingVideo` immediately;
* `replayPress`: `handleReplay` resets `replayCount`, clears the limit flag
  and calls `player.replay()`;
* `visibility`: the visibility effect plays (if the limit is not reached) or
  pauses the player;
* `uriChange`: the URI effect resets every counter and flag, clears the
  timeout and issues `player.replace(uri)`. -/
def step (s : PlayerState) : PEvent → PlayerState
  | .statusError =>
    { s with error := some loadErrMsg, isLoading := false, timerPending := true }
  | .statusReady =>
    { s with isLoading := false, error := none, retryCount := 0, timerPending := false }
  | .playingChange isPlaying curPos =>
    let base := { s with playing := isPlaying }
    if isPlaying = false ∧ s.hasReachedLimit = false ∧ curPos = true then
      let newCount := s.replayCount + 1
      if MAX_REPLAYS ≤ newCount then
        { base with replayCount := newCount, hasReachedLimit := true }
      else
        { base with replayCount := newCount, playing := true }
    else base
  | .timerFire =>
    if s.timerPending then retryStep { s with timerPending := false } else s
  | .retryNow => retryStep { s with timerPending := false }
  | .replayPress =>
    { s with replayCount := 0, hasReachedLimit := false, playing := true }
  | .visibility v =>
    if v then (if s.hasReachedLimit then s else { s with playing := true })
    else { s with playing := false }
  | .uriChange =>
    { s with
      isLoading := true
      error := none
      replayCount := 0
      hasReachedLimit := false
      retryCount := 0
      timerPending := false
      loadRequests := s.loadRequests + 1 }

/-- Run a list of events from a state. -/
def runP (s : PlayerState) (evs : List PEvent) : PlayerState := evs.foldl step s

/-- `n` consecutive error / timer-fire rounds. -/
def errRetrySeq : Nat → List PEvent
  | 0 => []
  | n + 1 => errRetrySeq n ++ [PEvent.statusError, PEvent.timerFire]

/-! ## Receiver notification intake (`processNotification` in `App.tsx`) -/

/-- The stored `MediaNotification` record (timestamps as abstract ticks). -/
structure MediaNotification where
  id : String
  type : String
  url : String
  timestamp : Nat
deriving DecidableEq, Repr

/-- The `data` of an incoming push payload; `none` models an absent field. -/
structure PushPayload where
  mediaUrl : Option String
  mediaType : Option String
deriving DecidableEq, Repr

/-- JavaScript truthiness of an optional string field: absent and `''` are
falsy. -/
def truthy : Option String → Bool
  | none => false
  | some s => !(s = "")

/-- `processNotification`: reject payloads whose `mediaUrl` or `mediaType` is
falsy; otherwise build a fresh `MediaNotification` (with a generated unique
id) and prepend it to the list — unless some stored entry already has the same
`url`, in which case the list is returned unchanged. -/
def processNotification (prev : List MediaNotification) (p : PushPayload)
    (freshId : String) (now : Nat) : List MediaNotification :=
  if !truthy p.mediaUrl ∨ !truthy p.mediaType then prev
  else
    match p.mediaUrl, p.mediaType with
    | some u, some t =>
      if prev.any (fun n => n.url == u) then prev
      else { id := freshId, type := t, url := u, timestamp := now } :: prev
    | _, _ => prev

/-! ## Sanity checks of the embedded primitives -/

example : isMovFile "A.MOV" = true := by decide
example : isMovFile "a.mov" = true := by decide
example : isMovFile "a.mp4" = false := by decide
example : replaceFirst "clip.mov" ".mov" ".mp4" = "clip.mp4" := by decide
example : replaceFirst "CLIP.MOV" ".mov" ".mp4" = "CLIP.MOV" := by decide
example : replaceFirst "my.movie.mov" ".mov" ".mp4" = "my.mp4ie.mov" := by decide
example : basename "a/b/c.mp4" = "c.mp4" := by decide
example : basename "c.mp4" = "c.mp4" := by decide
example : joinPath "/volumes/MomentLoop/" "a.mov" = "/volumes/MomentLoop/a.mov" := by decide
example : joinPath "/volumes/MomentLoop" "a.mov" = "/volumes/MomentLoop/a.mov" := by decide

/-! ## General helper lemmas -/

/-- `takeWhile` walks through a leading block whose elements all satisfy
the predicate. -/
theorem takeWhile_append_of_all (p : Char → Bool) (xs ys : List Char)
    (h : ∀ x ∈ xs, p x = true) :
    (xs ++ ys).takeWhile p = xs ++ ys.takeWhile p := by
  induction xs with
  | nil => simp
  | cons a t ih =>
    have ha : p a = true := h a (by simp)
    simp only [List.cons_append, List.takeWhile_cons, ha, if_true]
    rw [ih (fun x hx => h x (by simp [hx]))]

/-- Appending slash-free characters extends the basename. -/
theorem basename_mk_append (l m : List Char) (hm : ∀ c ∈ m, (c != '/') = true) :
    (basename (String.mk (l ++ m))).data = (basename (String.mk l)).data ++ m := by
  simp only [basename]
  rw [List.reverse_append]
  rw [takeWhile_append_of_all _ m.reverse _ (fun x hx => hm x (List.mem_reverse.mp hx))]
  rw [List.reverse_append, List.reverse_reverse]

/-- A list ends with its appended suffix. -/
theorem isSuffixOf_append_self (l m : List Char) : m.isSuffixOf (l ++ m) = true := by
  rw [List.isSuffixOf_iff_suffix]
  exact List.suffix_append l m

/-- If the first occurrence of `pat` in `l₁ ++ pat` is the final one, the
JavaScript-style first-occurrence replacement rewrites exactly that suffix. -/
theorem replaceFirstChars_suffix (pat rep l₁ : List Char) (hne : pat ≠ [])
    (hfirst : ∀ i, i < l₁.length → pat.isPrefixOf ((l₁ ++ pat).drop i) = false) :
    replaceFirstChars pat rep (l₁ ++ pat) = l₁ ++ rep := by
  obtain ⟨c, cs, rfl⟩ : ∃ c cs, pat = c :: cs := by
    cases pat with
    | nil => exact absurd rfl hne
    | cons c cs => exact ⟨c, cs, rfl⟩
  induction l₁ with
  | nil =>
    simp only [List.nil_append, replaceFirstChars]
    have hp : (c :: cs).isPrefixOf (c :: cs) = true := by
      rw [List.isPrefixOf_iff_prefix]
    simp [hp, List.drop_length]
  | cons a t ih =>
    have h0 : (c :: cs).isPrefixOf (a :: (t ++ (c :: cs))) = false := by
      simpa using hfirst 0 (by simp)
    simp only [List.cons_append, replaceFirstChars, List.append_eq, h0,
      Bool.false_eq_true, if_false]
    rw [ih (fun i hi => by simpa using hfirst (i + 1) (by simpa using hi))]

/-- Running a concatenation of event lists runs them in sequence. -/
theorem runP_append (s : PlayerState) (l₁ l₂ : List PEvent) :
    runP s (l₁ ++ l₂) = runP (runP s l₁) l₂ := by
  simp [runP, List.foldl_append]

/-- State of the player after `n` error / timer-fire rounds from a fresh
mount: each round up to the cap performs one more load attempt; from round 11
on the state is stuck on the terminal failure message. -/
theorem runP_errRetrySeq (n : Nat) :
    runP initState (errRetrySeq n) =
      if n ≤ MAX_RETRIES then
        { initState with retryCount := n, loadRequests := 1 + n }
      else
        { initState with
          isLoading := false
          error := some retryFailMsg
          retryCount := MAX_RETRIES
          loadRequests := 1 + MAX_RETRIES } := by
  induction n with
  | zero => simp [errRetrySeq, runP, initState, MAX_RETRIES]
  | succ k ih =>
    rw [errRetrySeq, runP_append, ih]
    simp only [MAX_RETRIES] at *
    by_cases h1 : k + 1 ≤ 10
    · have hk : k ≤ 10 := by omega
      have hklt : k < 10 := by omega
      simp [hk, h1, runP, step, retryStep, hklt, Nat.add_assoc, initState, MAX_RETRIES]
    · by_cases h2 : k ≤ 10
      · have hk10 : k = 10 := by omega
        subst hk10
        simp [runP, step, retryStep, initState, MAX_RETRIES]
      · simp [h2, h1, runP, step, retryStep, initState, MAX_RETRIES]

/-- Once the retry budget is exhausted, error and timer events keep
`retryCount` at the cap and never issue another load request. -/
theorem cap_step (s : PlayerState) (hs : s.retryCount = MAX_RETRIES) (e : PEvent)
    (he : e = PEvent.statusError ∨ e = PEvent.timerFire) :
    (step s e).retryCount = MAX_RETRIES ∧ (step s e).loadRequests = s.loadRequests := by
  rcases he with rfl | rfl
  · simp [step]
    exact hs
  · simp [step, retryStep, hs]
    split <;> simp [hs]

/-- List version of `cap_step`: a whole trace of error and timer events after
exhaustion performs no load request. -/
theorem cap_run (l : List PEvent) :
    ∀ s : PlayerState, s.retryCount = MAX_RETRIES →
      (∀ e ∈ l, e = PEvent.statusError ∨ e = PEvent.timerFire) →
      (runP s l).loadRequests = s.loadRequests ∧ (runP s l).retryCount = MAX_RETRIES := by
  induction l with
  | nil => intro s hs _; exact ⟨rfl, hs⟩
  | cons e t ih =>
    intro s hs hl
    have he := hl e (by simp)
    have hstep := cap_step s hs e he
    have hrun : runP s (e :: t) = runP (step s e) t := rfl
    rw [hrun]
    obtain ⟨hl₂, hr₂⟩ := ih (step s e) hstep.1 (fun x hx => hl x (by simp [hx]))
    exact ⟨by rw [hl₂, hstep.2], hr₂⟩

/-! ## Claim theorems -/

/-- C1: for every `POST /process-video` request with a non-empty `videoName`,
the handler's very first observable action — for every transcode outcome, so
independently of the transcode — is the HTTP response with status field
`"processing"`, and no response with any other status (in particular `"done"`
or `"error"`) ever appears in the trace. -/
theorem c1_responds_processing_before_work (videosDir serverUrl : String)
    (name : String) (tok : Option String) (h : name ≠ "") :
    ∀ (fileExists : String → Bool) (convertOk : Bool),
      ∃ rest, processVideoHandler videosDir serverUrl fileExists convertOk (some name) tok =
          SrvEv.respond "processing" :: rest ∧
        ∀ s, s ≠ "processing" →
          SrvEv.respond s ∉
            processVideoHandler videosDir serverUrl fileExists convertOk (some name) tok := by
  intro fe cv
  simp only [processVideoHandler, h, if_false]
  refine ⟨_, rfl, ?_⟩
  intro s hs
  cases hpv : processVideo videosDir serverUrl fe cv name with
  | error e => simp [hpv, hs]
  | ok r => cases tok <;> simp [hpv, hs]

/-- Witness for C1 at a concrete request. -/
theorem c1_witness :
    (processVideoHandler "/volumes/MomentLoop/" "http://h" (fun _ => true) true
        (some "clip.mov") (some "ExponentPushToken")).head? =
      some (SrvEv.respond "processing") := by
  obtain ⟨rest, hr, -⟩ :=
    c1_responds_processing_before_work "/volumes/MomentLoop/" "http://h" "clip.mov"
      (some "ExponentPushToken") (by decide) (fun _ => true) true
  rw [hr]
  rfl

/-- C2 counterexample: `"CLIP.MOV"` satisfies `isMovFile` (the check is case
insensitive) and the conversion oracle succeeds, yet JavaScript's
case-sensitive first-occurrence `replace(".mov", ".mp4")` leaves the name
unchanged: `outputPath` still ends in `.MOV` (it even equals `inputPath`) and
the resulting `processedVideoUrl` does not end in `.mp4`. -/
theorem c2_counterexample :
    isMovFile "CLIP.MOV" = true ∧
    (processVideo "/volumes/MomentLoop/" "http://h" (fun _ => true) true "CLIP.MOV").map
        (fun r => strEndsWith r.processedVideoUrl ".mp4") = Except.ok false ∧
    (processVideo "/volumes/MomentLoop/" "http://h" (fun _ => true) true "CLIP.MOV").map
        (fun r => r.outputPath) = Except.ok "/volumes/MomentLoop/CLIP.MOV" :=
  ⟨by decide, rfl, rfl⟩

/-- C2 (amended): when the name decomposes as `pre ++ ".mov"` with no earlier
occurrence of the (lower-case) pattern `".mov"` — which is where the code's
first-occurrence `replace` coincides with suffix replacement — a successful
conversion yields `outputPath` with the suffix swapped to `.mp4`,
`finalVideoPath = outputPath`, and a `processedVideoUrl` ending in `.mp4`. -/
theorem c2_mov_suffix_replacement (videosDir serverUrl : String)
    (fileExists : String → Bool) (videoName : String) (pre : List Char)
    (hdecomp : videoName.data = pre ++ (".mov" : String).data)
    (hfirst : ∀ i, i < pre.length →
      (".mov" : String).data.isPrefixOf ((pre ++ (".mov" : String).data).drop i) = false)
    (hmov : isMovFile videoName = true)
    (hfe : fileExists (joinPath videosDir videoName) = true) :
    ∃ r, processVideo videosDir serverUrl fileExists true videoName = .ok r ∧
      r.outputPath = joinPath videosDir (String.mk (pre ++ (".mp4" : String).data)) ∧
      r.finalVideoPath = r.outputPath ∧
      strEndsWith r.processedVideoUrl ".mp4" = true := by
  have hrepl : replaceFirst videoName ".mov" ".mp4"
      = String.mk (pre ++ (".mp4" : String).data) := by
    simp only [replaceFirst, hdecomp]
    rw [replaceFirstChars_suffix _ _ _ (by decide) hfirst]
  have hpv : processVideo videosDir serverUrl fileExists true videoName =
      .ok { success := true
            inputPath := joinPath videosDir videoName
            outputPath := joinPath videosDir (String.mk (pre ++ (".mp4" : String).data))
            finalVideoPath := joinPath videosDir (String.mk (pre ++ (".mp4" : String).data))
            processedVideoUrl := serverUrl ++ "/" ++
              basename (joinPath videosDir (String.mk (pre ++ (".mp4" : String).data)))
            needsConversion := true } := by
    simp only [processVideo, hfe, hmov, hrepl, Bool.not_true, Bool.false_eq_true, if_false,
      if_true]
  refine ⟨_, hpv, rfl, rfl, ?_⟩
  have hout : ∃ q, (joinPath videosDir (String.mk (pre ++ (".mp4" : String).data))).data
      = (q ++ pre) ++ (".mp4" : String).data := by
    simp only [joinPath]
    split
    · exact ⟨[], by simp⟩
    · split
      · refine ⟨videosDir.data, ?_⟩
        rw [String.data_append]
        simp [List.append_assoc]
      · refine ⟨videosDir.data ++ ['/'], ?_⟩
        rw [String.data_append, String.data_append]
        simp [List.append_assoc]
  obtain ⟨q, hq⟩ := hout
  have h2 : (basename (joinPath videosDir (String.mk (pre ++ (".mp4" : String).data)))).data
      = (basename (String.mk (q ++ pre))).data ++ (".mp4" : String).data := by
    calc (basename (joinPath videosDir (String.mk (pre ++ (".mp4" : String).data)))).data
        = (basename (String.mk ((q ++ pre) ++ (".mp4" : String).data))).data := by rw [← hq]
      _ = (basename (String.mk (q ++ pre))).data ++ (".mp4" : String).data :=
          basename_mk_append _ _ (by decide)
  simp only [strEndsWith, String.data_append, h2]
  have := isSuffixOf_append_self
    (serverUrl.data ++ ("/" : String).data ++ (basename (String.mk (q ++ pre))).data)
    (".mp4" : String).data
  simpa [List.append_assoc] using this

/-- Witness for C2 (amended) at `"clip.mov"`. -/
theorem c2_witness :
    (processVideo "/volumes/MomentLoop/" "http://h" (fun _ => true) true "clip.mov").map
        (fun r => strEndsWith r.processedVideoUrl ".mp4") = Except.ok true := by
  obtain ⟨r, hr, -, -, hend⟩ :=
    c2_mov_suffix_replacement "/volumes/MomentLoop/" "http://h" (fun _ => true) "clip.mov"
      ("clip" : String).data (by decide) (by decide) (by decide) (by decide)
  rw [hr]
  simp [Except.map, hend]

/-- C4: every success record of `processVideo` has
`processedVideoUrl = serverUrl ++ "/" ++ basename finalVideoPath`, and that
basename contains no `/` — the URL is built from the last path segment of
`finalVideoPath`, never from the full path. -/
theorem c4_public_url_from_basename (videosDir serverUrl : String)
    (fileExists : String → Bool) (convertOk : Bool) (videoName : String)
    (r : TranscodeResult)
    (h : processVideo videosDir serverUrl fileExists convertOk videoName = .ok r) :
    r.processedVideoUrl = serverUrl ++ "/" ++ basename r.finalVideoPath ∧
      ∀ c ∈ (basename r.finalVideoPath).data, c ≠ '/' := by
  have hb : ∀ s : String, ∀ c ∈ (basename s).data, c ≠ '/' := by
    intro s c hc
    simp only [basename] at hc
    have := List.mem_takeWhile_imp (List.mem_reverse.mp hc)
    simpa using this
  simp only [processVideo] at h
  split at h
  · exact absurd h (by simp)
  · split at h
    · split at h
      · injection h with h
        subst h
        exact ⟨rfl, hb _⟩
      · exact absurd h (by simp)
    · injection h with h
      subst h
      exact ⟨rfl, hb _⟩

/-- Witness for C4 at a name with a directory segment. -/
theorem c4_witness :
    ({ success := true
       inputPath := "/v/sub/clip.mp4"
       outputPath := "/v/sub/clip.mp4"
       finalVideoPath := "/v/sub/clip.mp4"
       processedVideoUrl := "http://h/clip.mp4"
       needsConversion := false } : TranscodeResult).processedVideoUrl =
      "http://h" ++ "/" ++
        basename ({ success := true
                    inputPath := "/v/sub/clip.mp4"
                    outputPath := "/v/sub/clip.mp4"
                    finalVideoPath := "/v/sub/clip.mp4"
                    processedVideoUrl := "http://h/clip.mp4"
                    needsConversion := false } : TranscodeResult).finalVideoPath :=
  (c4_public_url_from_basename "/v/" "http://h" (fun _ => true) true "sub/clip.mp4" _ rfl).1

/-- C10: `processVideo` never returns a record with `success = false`: every
returned record has `success = true`, and both failure modes — missing input
file and failed conversion — surface as thrown exceptions (`Except.error`)
instead. -/
theorem c10_success_always_true (videosDir serverUrl : String)
    (fileExists : String → Bool) (convertOk : Bool) (videoName : String)
    (r : TranscodeResult)
    (h : processVideo videosDir serverUrl fileExists convertOk videoName = .ok r) :
    r.success = true := by
  simp only [processVideo] at h
  split at h
  · exact absurd h (by simp)
  · split at h
    · split at h
      · injection h with h
        subst h
        rfl
      · exact absurd h (by simp)
    · injection h with h
      subst h
      rfl

/-- Witness for C10 at a concrete non-mov upload. -/
theorem c10_witness :
    ({ success := true
       inputPath := "/v/clip.mp4"
       outputPath := "/v/clip.mp4"
       finalVideoPath := "/v/clip.mp4"
       processedVideoUrl := "http://h/clip.mp4"
       needsConversion := false } : TranscodeResult).success = true :=
  c10_success_always_true "/v/" "http://h" (fun _ => true) true "clip.mp4" _ rfl

/-- C9: within one `/process-video` request, the transcode completes before a
notification is dispatched: if `processVideo` fails no `notify` event occurs
at all, and every `notify` event carries exactly the success record's
`processedVideoUrl` and appears strictly after the `transcodeDone true`
event in the trace. -/
theorem c9_transcode_before_notify (videosDir serverUrl : String)
    (fileExists : String → Bool) (convertOk : Bool) (name : String)
    (tok : Option String) :
    (∀ e, processVideo videosDir serverUrl fileExists convertOk name = .error e →
      ∀ t u, SrvEv.notify t u ∉
        processVideoHandler videosDir serverUrl fileExists convertOk (some name) tok) ∧
    (∀ t u, SrvEv.notify t u ∈
        processVideoHandler videosDir serverUrl fileExists convertOk (some name) tok →
      ∃ r, processVideo videosDir serverUrl fileExists convertOk name = .ok r ∧
        u = r.processedVideoUrl ∧
        ∃ l₁ l₂, processVideoHandler videosDir serverUrl fileExists convertOk (some name) tok
            = l₁ ++ SrvEv.transcodeDone true :: l₂ ∧ SrvEv.notify t u ∈ l₂) := by
  by_cases hn : name = ""
  · constructor
    · intro e he t u
      simp [processVideoHandler, hn]
    · intro t u hmem
      simp [processVideoHandler, hn] at hmem
  · constructor
    · intro e he t u
      simp [processVideoHandler, hn, he]
    · intro t u hmem
      cases hpv : processVideo videosDir serverUrl fileExists convertOk name with
      | error e => simp [processVideoHandler, hn, hpv] at hmem
      | ok r =>
        cases htok : tok with
        | none => simp [processVideoHandler, hn, hpv, htok] at hmem
        | some t0 =>
          simp only [processVideoHandler, hn, if_false, hpv, htok] at hmem
          simp at hmem
          refine ⟨r, rfl, hmem.2, [SrvEv.respond "processing"],
            [SrvEv.notify t0 r.processedVideoUrl], ?_, ?_⟩
          · simp [processVideoHandler, hn, hpv, htok]
          · simp [hmem.1, hmem.2]

/-- Witness for C9: with a missing input file the transcode fails and the
trace contains no notification. -/
theorem c9_witness :
    SrvEv.notify "T" "u" ∉
      processVideoHandler "/v/" "http://h" (fun _ => false) true (some "a.mp4") (some "T") :=
  (c9_transcode_before_notify "/v/" "http://h" (fun _ => false) true "a.mp4"
      (some "T")).1 ProcessError.fileNotFound rfl "T" "u"

/-- C3 counterexample: after the 10 automatic retries are exhausted
(`retryCount = MAX_RETRIES`), pressing "Retry Now" does not trigger another
load attempt: `handleRetryNow` delegates to `retryLoadingVideo`, whose cap
check also blocks manual retries, so `loadRequests` stays unchanged —
refuting "manual retries are not capped". -/
theorem c3_counterexample :
    (runP initState (errRetrySeq 10)).retryCount = MAX_RETRIES ∧
    (step (runP initState (errRetrySeq 10)) PEvent.retryNow).loadRequests =
      (runP initState (errRetrySeq 10)).loadRequests := by decide

/-- C3 (amended): at `retryCount = MAX_RETRIES` neither a fired timer nor the
manual "Retry Now" control performs a load attempt — both only clear the
pending timer and set the terminal failure message, because the cap check
lives inside the shared `retryLoadingVideo` routine; below the cap the manual
control does trigger one more load of the same URL and increments
`retryCount`. Manual retries are capped exactly like automatic ones. -/
theorem c3_manual_retry_capped (s : PlayerState) :
    (MAX_RETRIES ≤ s.retryCount →
      step s PEvent.retryNow = { s with timerPending := false, error := some retryFailMsg } ∧
      (s.timerPending = true →
        step s PEvent.timerFire =
          { s with timerPending := false, error := some retryFailMsg })) ∧
    (s.retryCount < MAX_RETRIES →
      step s PEvent.retryNow =
        { s with
          timerPending := false
          isLoading := true
          error := none
          retryCount := s.retryCount + 1
          loadRequests := s.loadRequests + 1 }) := by
  constructor
  · intro hge
    have hnlt : ¬ s.retryCount < MAX_RETRIES := by omega
    constructor
    · simp [step, retryStep, hnlt]
    · intro hp
      simp [step, retryStep, hp, hnlt]
  · intro hlt
    simp [step, retryStep, hlt]

/-- Witness for C3 (amended): a manual retry below the cap loads once more. -/
theorem c3_witness :
    step initState PEvent.retryNow =
      { initState with
        timerPending := false
        isLoading := true
        error := none
        retryCount := initState.retryCount + 1
        loadRequests := initState.loadRequests + 1 } :=
  (c3_manual_retry_capped initState).2 (by decide)

/-- C5: `replayCount` changes only by incrementing on a stopped-playing
completion event (never on the manual replay control, which resets it to 0);
`hasReachedLimit` becomes true on a completion exactly when the new count
reaches `MAX_REPLAYS = 5`, at which point playback stays paused instead of
auto-restarting, while below the cap the handler auto-restarts; once the
limit is set a further completion event changes nothing but the paused flag;
the manual replay resets the count, clears the flag and resumes playback; and
five consecutive natural completions from a fresh mount reach the limit with
no sixth automatic restart. -/
theorem c5_replay_cap :
    (∀ (s : PlayerState) (e : PEvent), (step s e).replayCount = s.replayCount ∨
      ((step s e).replayCount = s.replayCount + 1 ∧ e = PEvent.playingChange false true ∧
        s.hasReachedLimit = false) ∨
      ((step s e).replayCount = 0 ∧ (e = PEvent.replayPress ∨ e = PEvent.uriChange))) ∧
    (∀ s : PlayerState, s.hasReachedLimit = false →
      ((step s (PEvent.playingChange false true)).hasReachedLimit = true ↔
        MAX_REPLAYS ≤ s.replayCount + 1)) ∧
    (∀ s : PlayerState, s.hasReachedLimit = false → MAX_REPLAYS ≤ s.replayCount + 1 →
      (step s (PEvent.playingChange false true)).playing = false) ∧
    (∀ s : PlayerState, s.hasReachedLimit = false → s.replayCount + 1 < MAX_REPLAYS →
      (step s (PEvent.playingChange false true)).playing = true) ∧
    (∀ s : PlayerState, s.hasReachedLimit = true →
      step s (PEvent.playingChange false true) = { s with playing := false }) ∧
    (∀ s : PlayerState, step s PEvent.replayPress =
      { s with replayCount := 0, hasReachedLimit := false, playing := true }) ∧
    (runP initState (List.replicate 4 (PEvent.playingChange false true))).replayCount = 4 ∧
    (runP initState (List.replicate 4 (PEvent.playingChange false true))).hasReachedLimit
      = false ∧
    (runP initState (List.replicate 4 (PEvent.playingChange false true))).playing = true ∧
    (runP initState (List.replicate 5 (PEvent.playingChange false true))).replayCount = 5 ∧
    (runP initState (List.replicate 5 (PEvent.playingChange false true))).hasReachedLimit
      = true ∧
    (runP initState (List.replicate 5 (PEvent.playingChange false true))).playing = false ∧
    (runP initState (List.replicate 6 (PEvent.playingChange false true))).replayCount = 5 := by
  refine ⟨?_, ?_, ?_, ?_, ?_, ?_, ?_⟩
  · intro s e
    cases e with
    | statusError => left; simp [step]
    | statusReady => left; simp [step]
    | playingChange isPlaying curPos =>
      by_cases hcond : isPlaying = false ∧ s.hasReachedLimit = false ∧ curPos = true
      · by_cases hcap : MAX_REPLAYS ≤ s.replayCount + 1
        · right; left
          refine ⟨by simp [step, hcond, hcap], ?_, hcond.2.1⟩
          rw [hcond.1, hcond.2.2]
        · right; left
          refine ⟨by simp [step, hcond, hcap], ?_, hcond.2.1⟩
          rw [hcond.1, hcond.2.2]
      · left
        simp [step, hcond]
    | timerFire =>
      left
      simp only [step, retryStep]
      split
      · split <;> simp
      · rfl
    | retryNow =>
      left
      simp only [step, retryStep]
      split <;> simp
    | replayPress => right; right; simp [step]
    | visibility v =>
      left
      cases v
      · simp [step]
      · simp only [step, if_true]
        split
        · rfl
        · rfl
    | uriChange => right; right; simp [step]
  · intro s hs
    by_cases hcap : MAX_REPLAYS ≤ s.replayCount + 1
    · simp [step, hs, hcap]
    · simp [step, hs, hcap]
  · intro s hs hcap
    simp [step, hs, hcap]
  · intro s hs hlt
    have : ¬ MAX_REPLAYS ≤ s.replayCount + 1 := by omega
    simp [step, hs, this]
  · intro s hs
    simp [step, hs]
  · intro s
    simp [step]
  · decide

/-- Witness for C5: a fifth completion from count 4 sets the limit flag. -/
theorem c5_witness :
    ((step { initState with replayCount := 4 } (PEvent.playingChange false true)).hasReachedLimit
        = true) ↔
      MAX_REPLAYS ≤ ({ initState with replayCount := 4 } : PlayerState).replayCount + 1 :=
  c5_replay_cap.2.1 { initState with replayCount := 4 } (by decide)

/-- C6 counterexample: the retry timer is scheduled by the error handlers
unconditionally — the `retryCount < MAX_RETRIES` check lives inside the
scheduled routine, not around the `setTimeout`. After 10 error / timer-fire
rounds `retryCount = MAX_RETRIES`, yet the next error still schedules the
retry routine (`timerPending = true`), refuting "only while retryCount < 10
... schedules"; that 11th scheduled timer performs no load attempt when it
fires. -/
theorem c6_counterexample :
    (runP initState (errRetrySeq 10)).retryCount = MAX_RETRIES ∧
    (step (runP initState (errRetrySeq 10)) PEvent.statusError).timerPending = true ∧
    (runP (runP initState (errRetrySeq 10)) [PEvent.statusError, PEvent.timerFire]).loadRequests
      = (runP initState (errRetrySeq 10)).loadRequests := by decide

/-- C6 (amended): every load or playback error sets the error message, stops
the loading spinner and always (re)schedules the single delayed retry timer,
even at the cap; a fired timer re-requests the same URL and increments
`retryCount` only while `retryCount < MAX_RETRIES`, and at the cap it only
sets the terminal message; across `n` consecutive error / timer-fire rounds
both `retryCount` and the number of automatic reload attempts are `min n 10`,
so 10 consecutive errors with the timer firing each time produce exactly 10
automatic retries and no trace of further error and timer events ever
produces an 11th load attempt. The single `timerPending` slot models the one
`retryTimeoutRef`, cleared before each re-arm, so at most one timer is
pending at any moment. -/
theorem c6_error_retry_schedule :
    (∀ s : PlayerState, step s PEvent.statusError =
      { s with error := some loadErrMsg, isLoading := false, timerPending := true }) ∧
    (∀ s : PlayerState, s.timerPending = true → s.retryCount < MAX_RETRIES →
      step s PEvent.timerFire =
        { s with
          timerPending := false
          isLoading := true
          error := none
          retryCount := s.retryCount + 1
          loadRequests := s.loadRequests + 1 }) ∧
    (∀ s : PlayerState, s.timerPending = true → MAX_RETRIES ≤ s.retryCount →
      step s PEvent.timerFire = { s with timerPending := false, error := some retryFailMsg }) ∧
    (∀ n, (runP initState (errRetrySeq n)).retryCount = min n MAX_RETRIES ∧
      (runP initState (errRetrySeq n)).loadRequests = 1 + min n MAX_RETRIES) ∧
    (∀ l, (∀ e ∈ l, e = PEvent.statusError ∨ e = PEvent.timerFire) →
      (runP (runP initState (errRetrySeq MAX_RETRIES)) l).loadRequests =
        (runP initState (errRetrySeq MAX_RETRIES)).loadRequests) := by
  refine ⟨?_, ?_, ?_, ?_, ?_⟩
  · intro s
    simp [step]
  · intro s hp hlt
    simp [step, retryStep, hp, hlt]
  · intro s hp hge
    have : ¬ s.retryCount < MAX_RETRIES := by omega
    simp [step, retryStep, hp, this]
  · intro n
    rw [runP_errRetrySeq]
    by_cases h : n ≤ MAX_RETRIES
    · simp [h, Nat.min_eq_left h]
    · have : min n MAX_RETRIES = MAX_RETRIES := by omega
      simp [h, this]
  · intro l hl
    have h10 : (runP initState (errRetrySeq MAX_RETRIES)).retryCount = MAX_RETRIES := by
      rw [runP_errRetrySeq]
      simp
    exact (cap_run l _ h10 hl).1

/-- Witness for C6 (amended): after exhaustion, one more error / timer round
performs no load attempt. -/
theorem c6_witness :
    (runP (runP initState (errRetrySeq MAX_RETRIES))
        [PEvent.statusError, PEvent.timerFire]).loadRequests =
      (runP initState (errRetrySeq MAX_RETRIES)).loadRequests :=
  c6_error_retry_schedule.2.2.2.2 [PEvent.statusError, PEvent.timerFire] (by decide)

/-- C7 counterexample: a probe failure with HTTP status 405 — neither 401 nor
404 — does not fall through to the PUT: the source rethrows it, the outer
`catch` maps it to the WebDAV-configuration message, and the upload is never
attempted, refuting the claimed soft-fail policy. -/
theorem c7_counterexample :
    uploadToSynology (fun s => s) "http://nginx" "f.mp4" true (.httpFailure 405) 201 =
      { success := false
        url := none
        error := some "WebDAV not properly configured. Please check your Synology WebDAV settings."
        putAttempted := false } := by decide

/-- C7 (amended): the PROPFIND probe fails the whole upload on every probe
failure: 401 yields the authentication message and 404 the folder-not-found
message, while any other probe failure is logged, rethrown, mapped by the
outer error handler (`serverErrorMessage` / `networkErrorMessage`) — and in
all these cases the PUT is never attempted; only a successful probe reaches
the PUT. -/
theorem c7_probe_failure_policy (enc : String → String) (nginxHost fileName : String)
    (putStatus : Nat) :
    (uploadToSynology enc nginxHost fileName true (.httpFailure 401) putStatus =
      { success := false
        url := none
        error := some "Authentication failed. Please check your username and password."
        putAttempted := false }) ∧
    (uploadToSynology enc nginxHost fileName true (.httpFailure 404) putStatus =
      { success := false
        url := none
        error := some "Upload folder not found. Please check your Synology WebDAV configuration."
        putAttempted := false }) ∧
    (∀ status : Nat, status ≠ 401 → status ≠ 404 →
      uploadToSynology enc nginxHost fileName true (.httpFailure status) putStatus =
        { success := false
          url := none
          error := some (serverErrorMessage status)
          putAttempted := false }) ∧
    (∀ code : String,
      uploadToSynology enc nginxHost fileName true (.networkFailure code) putStatus =
        { success := false
          url := none
          error := some (networkErrorMessage code)
          putAttempted := false }) ∧
    (uploadToSynology enc nginxHost fileName true .ok putStatus).putAttempted = true := by
  refine ⟨?_, ?_, ?_, ?_, ?_⟩
  · simp [uploadToSynology]
  · simp [uploadToSynology]
  · intro status h1 h4
    simp [uploadToSynology, h1, h4]
  · intro code
    simp [uploadToSynology]
  · simp only [uploadToSynology, Bool.not_true, Bool.false_eq_true, if_false]
    split
    · rfl
    · rfl

/-- Witness for C7 (amended) at probe status 503. -/
theorem c7_witness :
    uploadToSynology (fun s => s) "http://nginx" "f.mp4" true (.httpFailure 503) 200 =
      { success := false
        url := none
        error := some (serverErrorMessage 503)
        putAttempted := false } :=
  (c7_probe_failure_policy (fun s => s) "http://nginx" "f.mp4" 200).2.2.1 503
    (by decide) (by decide)

/-- C8: delivering two payloads with the same (truthy) `mediaUrl` to
`processNotification` stores exactly one entry: the first is prepended to the
front, the second leaves the list unchanged, the stored list contains exactly
one entry with that url, and — in general — processing any payload preserves
distinctness of the stored urls. -/
theorem c8_url_dedup (prev : List MediaNotification) (u t1 t2 id1 id2 : String)
    (ts1 ts2 : Nat) (hu : u ≠ "") (ht1 : t1 ≠ "") (ht2 : t2 ≠ "")
    (hnew : ∀ n ∈ prev, n.url ≠ u) :
    processNotification prev ⟨some u, some t1⟩ id1 ts1 =
      { id := id1, type := t1, url := u, timestamp := ts1 } :: prev ∧
    processNotification (processNotification prev ⟨some u, some t1⟩ id1 ts1)
        ⟨some u, some t2⟩ id2 ts2 =
      processNotification prev ⟨some u, some t1⟩ id1 ts1 ∧
    ((processNotification (processNotification prev ⟨some u, some t1⟩ id1 ts1)
        ⟨some u, some t2⟩ id2 ts2).filter (fun n => n.url == u)).length = 1 ∧
    (∀ (l : List MediaNotification) (p : PushPayload) (fid : String) (ts : Nat),
      (l.map (fun n => n.url)).Nodup →
        ((processNotification l p fid ts).map (fun n => n.url)).Nodup) := by
  have hany : prev.any (fun n => n.url == u) = false := by
    rw [List.any_eq_false]
    intro n hn
    simpa using hnew n hn
  have h1 : processNotification prev ⟨some u, some t1⟩ id1 ts1 =
      { id := id1, type := t1, url := u, timestamp := ts1 } :: prev := by
    simp [processNotification, truthy, hu, ht1, hany]
  have h2 : processNotification (processNotification prev ⟨some u, some t1⟩ id1 ts1)
      ⟨some u, some t2⟩ id2 ts2 = processNotification prev ⟨some u, some t1⟩ id1 ts1 := by
    rw [h1]
    simp [processNotification, truthy, hu, ht2, List.any_cons]
  refine ⟨h1, h2, ?_, ?_⟩
  · rw [h2, h1]
    simp only [List.filter_cons]
    have hf : prev.filter (fun n => n.url == u) = [] := by
      rw [List.filter_eq_nil_iff]
      intro n hn
      simpa using hnew n hn
    simp [hf]
  · intro l p fid ts hnd
    obtain ⟨mu, mt⟩ := p
    cases mu with
    | none => simpa [processNotification, truthy] using hnd
    | some u' =>
      cases mt with
      | none => simpa [processNotification, truthy] using hnd
      | some t' =>
        by_cases hu' : u' = ""
        · simpa [processNotification, truthy, hu'] using hnd
        · by_cases ht' : t' = ""
          · simpa [processNotification, truthy, ht'] using hnd
          · cases hany' : l.any (fun n => n.url == u') with
            | true => simpa [processNotification, truthy, hu', ht', hany'] using hnd
            | false =>
              simp only [processNotification, truthy, hu', ht', hany']
              have hnotmem : u' ∉ l.map (fun n => n.url) := by
                rw [List.any_eq_false] at hany'
                intro hmem
                obtain ⟨n, hn, hn'⟩ := List.mem_map.mp hmem
                exact hany' n hn (by simp [hn'])
              simpa [hnotmem] using hnd

/-- Witness for C8 at two concrete payloads with the same url. -/
theorem c8_witness :
    processNotification
        (processNotification [] ⟨some "http://h/v.mp4", some "video"⟩ "id1" 0)
        ⟨some "http://h/v.mp4", some "video"⟩ "id2" 1 =
      processNotification [] ⟨some "http://h/v.mp4", some "video"⟩ "id1" 0 :=
  (c8_url_dedup [] "http://h/v.mp4" "video" "video" "id1" "id2" 0 1
      (by decide) (by decide) (by decide) (by simp)).2.1

end MomentLoop
